import Mathlib

/-!
Verification of the Baseball pitch tracker (`Summary.py`).

The module is embedded shallowly: the static zone tables become Lean lists,
the frozen `PitchEntry` dataclass and the mutable `PitchTracker` state become
structures, and each method becomes a function that threads the state
explicitly.  A method that can raise is modelled as returning
`Except Err result × State`, where the returned state is the state of the
tracker at the moment the method exits (by return or by raise) — Python
exceptions leave any mutations made so far in place, and in this code every
`raise` happens before any mutation, which the embedding makes visible.
Python integers are `Int`; the float percentage is idealised as `ℚ` with
Python's banker's rounding (`round(x, 1)`) modelled exactly on rationals.
-/

/-- The static neighbor-adjacency table `NEIGHBORS`, as an association list in
the source's key order. -/
def NEIGHBORS : List (String × List String) :=
  [("Q1", ["Q2", "Q4", "T1", "L1"]), ("Q2", ["Q1", "Q3", "Q5", "T2"]),
   ("Q3", ["Q2", "Q6", "T3", "R1"]),
   ("Q4", ["Q1", "Q5", "Q7", "L2"]), ("Q5", ["Q2", "Q4", "Q6", "Q8"]),
   ("Q6", ["Q3", "Q5", "Q9", "R2"]),
   ("Q7", ["Q4", "Q8", "L3", "B1"]), ("Q8", ["Q5", "Q7", "Q9", "B2"]),
   ("Q9", ["Q6", "Q8", "R3", "B3"]),
   ("T1", ["Q1", "Q2", "T2"]), ("T2", ["Q2", "T1", "T3"]), ("T3", ["Q2", "Q3", "T2"]),
   ("L1", ["Q1", "L2"]), ("L2", ["Q4", "L1", "L3"]), ("L3", ["Q7", "L2"]),
   ("R1", ["Q3", "R2"]), ("R2", ["Q6", "R1", "R3"]), ("R3", ["Q9", "R2"]),
   ("B1", ["Q7", "B2"]), ("B2", ["Q8", "B1", "B3"]), ("B3", ["Q9", "B2"])]

/-- The fixed 5×5 display grid `ZONES_ORDER`. -/
def ZONES_ORDER : List (List String) :=
  [["TL", "T1", "T2", "T3", "TR"],
   ["L1", "Q1", "Q2", "Q3", "R1"],
   ["L2", "Q4", "Q5", "Q6", "R2"],
   ["L3", "Q7", "Q8", "Q9", "R3"],
   ["BL", "B1", "B2", "B3", "BR"]]

/-- `ALL_ZONES`: the grid flattened row by row (the fixed 25-label set). -/
def ALL_ZONES : List String := ZONES_ORDER.flatten

/-- The frozen dataclass `PitchEntry`. -/
structure PitchEntry where
  pitch_num : Int
  target : String
  actual : String
  accuracy : Int
deriving DecidableEq, Repr

/-- The two error kinds raised by the tracker (`ValueError` with the
"Invalid zone" message, and `ValueError` "Please set a target first."). -/
inductive Err where
  | invalidZone (zone : String)
  | noTargetSet
deriving DecidableEq, Repr

/-- The mutable fields of the `PitchTracker` dataclass. -/
structure State where
  target : Option String
  pitch_counter : Int
  pitch_log : List PitchEntry
deriving DecidableEq, Repr

/-- The dataclass defaults: `target=None, pitch_counter=0, pitch_log=[]`. -/
def initState : State := ⟨none, 0, []⟩

namespace PitchTracker

/-- `is_neighbor`: `actual in NEIGHBORS.get(target, [])`. -/
def is_neighbor (target actual : String) : Bool :=
  ((NEIGHBORS.lookup target).getD []).contains actual

/-- `_validate_zone`: raises `InvalidZone` when the zone is not in `ALL_ZONES`. -/
def validate_zone (zone : String) : Except Err Unit :=
  if zone ∉ ALL_ZONES then .error (.invalidZone zone) else .ok ()

/-- `set_target`: validate, then assign the target. -/
def set_target (s : State) (zone : String) : Except Err Unit × State :=
  match validate_zone zone with
  | .error e => (.error e, s)
  | .ok _ => (.ok (), { s with target := some zone })

/-- `log_pitch`: validate `actual`; raise `NoTargetSet` when `not self.target`
(Python truthiness: `None` or the empty string); otherwise bump the counter
(`1 if pitch_counter < 1 else pitch_counter + 1`), score the attempt, append
the entry, clear the target and return the entry. -/
def log_pitch (s : State) (actual : String) : Except Err PitchEntry × State :=
  match validate_zone actual with
  | .error e => (.error e, s)
  | .ok _ =>
    match s.target with
    | none => (.error .noTargetSet, s)
    | some t =>
      if t.isEmpty then (.error .noTargetSet, s)
      else
        let newCounter : Int := if s.pitch_counter < 1 then 1 else s.pitch_counter + 1
        let accuracy : Int := if t = actual then 10 else if is_neighbor t actual then 5 else 0
        let entry : PitchEntry := ⟨newCounter, t, actual, accuracy⟩
        (.ok entry, { target := none, pitch_counter := newCounter,
                      pitch_log := s.pitch_log ++ [entry] })

/-- `clear_pitch_log`: empties the log, resets the counter, unsets the target;
no failure case. -/
def clear_pitch_log (_ : State) : State :=
  { target := none, pitch_counter := 0, pitch_log := [] }

end PitchTracker

/-- Python's round-half-to-even on a rational, idealising `round` on floats. -/
def roundHalfEven (q : ℚ) : Int :=
  if q - ⌊q⌋ < 1 / 2 then ⌊q⌋
  else if 1 / 2 < q - ⌊q⌋ then ⌊q⌋ + 1
  else if ⌊q⌋ % 2 = 0 then ⌊q⌋ else ⌊q⌋ + 1

/-- Python's `round(x, 1)`: round to one decimal place, half to even. -/
def pyRound1 (q : ℚ) : ℚ := (roundHalfEven (q * 10) : ℚ) / 10

/-- One step of the dict tally `counts[p.actual] += 1`: bump the first matching
key, leave the list unchanged when the key is absent (the
`if p.actual in counts` guard). -/
def bumpCount : List (String × Nat) → String → List (String × Nat)
  | [], _ => []
  | (k, v) :: rest, z => if k = z then (k, v + 1) :: rest else (k, v) :: bumpCount rest z

/-- The fields of the snapshot dict returned by `generate_summary` that hold
data (the static `zones_order` echo and the float-formatted label strings are
omitted; every claim-relevant field is present). -/
structure Summary where
  total_pitches : Nat
  accurate_10 : Nat
  close_5 : Nat
  miss_0 : Int
  accuracy_pct : ℚ
  donut : List (String × Int)
  counts_by_zone : List (String × Nat)
  counts_grid : List (List Nat)
  log : List PitchEntry
deriving DecidableEq, Repr

namespace PitchTracker

/-- `generate_summary`: totals, percentage, per-zone tally and grids, plus the
log.  The method reads `self` but never assigns to it, so the embedded version
returns the state unchanged alongside the snapshot. -/
def generate_summary (s : State) : Summary × State :=
  let total := s.pitch_log.length
  let accurate := (s.pitch_log.filter (fun p => p.accuracy == 10)).length
  let close := (s.pitch_log.filter (fun p => p.accuracy == 5)).length
  let miss : Int := (total : Int) - accurate - close
  let accuracy_pct : ℚ := if total = 0 then 0 else ((accurate : ℚ) + (close : ℚ)) / (total : ℚ) * 100
  let counts := s.pitch_log.foldl (fun cs p => bumpCount cs p.actual) (ALL_ZONES.map fun z => (z, 0))
  ({ total_pitches := total
     accurate_10 := accurate
     close_5 := close
     miss_0 := miss
     accuracy_pct := pyRound1 accuracy_pct
     donut := [("Miss", miss), ("Close", (close : Int)), ("Accurate", (accurate : Int))]
     counts_by_zone := counts
     counts_grid := ZONES_ORDER.map fun row => row.map fun z => (counts.lookup z).getD 0
     log := s.pitch_log }, s)

end PitchTracker

/-- `get_heat_color`: ascending thresholds to one of four fixed colors. -/
def get_heat_color (v : Nat) : String :=
  if v = 0 then "#ffffff"
  else if v < 3 then "#a3d5ff"
  else if v < 6 then "#3399ff"
  else "#004c99"

/-- One external call on the tracker. -/
inductive Op where
  | setTargetOp (z : String)
  | logPitchOp (z : String)
  | clearLogOp
deriving DecidableEq, Repr

/-- The state after one call, whether the call succeeds or raises. -/
def step (s : State) : Op → State
  | .setTargetOp z => (PitchTracker.set_target s z).2
  | .logPitchOp z => (PitchTracker.log_pitch s z).2
  | .clearLogOp => PitchTracker.clear_pitch_log s

/-- Run a sequence of calls from the initial empty state. -/
def run (ops : List Op) : State := ops.foldl step initState

/-! ### Claims -/

/-- C3 (counterexample): the adjacency data is not symmetric — `T1` lists `Q2`
as a neighbor, but `Q2` does not list `T1`. -/
theorem C3_counterexample :
    PitchTracker.is_neighbor "T1" "Q2" = true ∧
    PitchTracker.is_neighbor "Q2" "T1" = false := by
  decide

/-- C3 (amended): the adjacency data is symmetric for every pair of zones
except the two pairs (T1, Q2) and (T3, Q2): `T1` and `T3` each list `Q2`,
while `Q2` lists neither of them. -/
theorem C3_symmetric_except_T1_T3_Q2 :
    ∀ z1 ∈ ALL_ZONES, ∀ z2 ∈ ALL_ZONES,
      ¬((z1 = "T1" ∧ z2 = "Q2") ∨ (z1 = "Q2" ∧ z2 = "T1") ∨
        (z1 = "T3" ∧ z2 = "Q2") ∨ (z1 = "Q2" ∧ z2 = "T3")) →
      PitchTracker.is_neighbor z1 z2 = PitchTracker.is_neighbor z2 z1 := by
  decide

/-- Witness for C3 (amended), at the concrete pair (Q1, Q2). -/
theorem C3_witness :
    PitchTracker.is_neighbor "Q1" "Q2" = PitchTracker.is_neighbor "Q2" "Q1" :=
  C3_symmetric_except_T1_T3_Q2 "Q1" (by decide) "Q2" (by decide) (by decide)

/-- C7: `generate_summary` is a pure function of the tracker state — it leaves
the state unchanged, and a second call on the resulting state returns the same
snapshot. -/
theorem C7_generate_summary_pure (s : State) :
    (PitchTracker.generate_summary s).2 = s ∧
    PitchTracker.generate_summary ((PitchTracker.generate_summary s).2) =
      PitchTracker.generate_summary s :=
  ⟨rfl, rfl⟩

/-- C8: `is_neighbor z1 z2` is a deterministic function that is true iff `z2`
is explicitly listed in the adjacency entry of `z1`; every corner zone (absent
from the map) has no neighbors, so `is_neighbor` is false for corner targets. -/
theorem C8_is_neighbor_spec :
    (∀ z1 z2 : String,
      PitchTracker.is_neighbor z1 z2 = true ↔ z2 ∈ (NEIGHBORS.lookup z1).getD []) ∧
    (∀ c ∈ ["TL", "TR", "BL", "BR"], ∀ z ∈ ALL_ZONES,
      PitchTracker.is_neighbor c z = false) := by
  constructor
  · intro z1 z2
    exact List.elem_iff
  · decide

/-- Witness for C8, at the concrete pairs (Q1, Q2) and (TL, Q1). -/
theorem C8_witness :
    (PitchTracker.is_neighbor "Q1" "Q2" = true ↔ "Q2" ∈ (NEIGHBORS.lookup "Q1").getD []) ∧
    PitchTracker.is_neighbor "TL" "Q1" = false :=
  ⟨C8_is_neighbor_spec.1 "Q1" "Q2", C8_is_neighbor_spec.2 "TL" (by decide) "Q1" (by decide)⟩

/-- C9: `get_heat_color` maps 0 to white, 1–2 to light blue, 3–5 to medium
blue, and everything from 6 up to dark blue; it is total on `Nat` and never
produces any other output. -/
theorem C9_get_heat_color_spec :
    ∀ v : Nat,
      get_heat_color v =
        (if 6 ≤ v then "#004c99"
         else if 3 ≤ v then "#3399ff"
         else if 1 ≤ v then "#a3d5ff"
         else "#ffffff") ∧
      get_heat_color v ∈ ["#ffffff", "#a3d5ff", "#3399ff", "#004c99"] := by
  intro v
  constructor
  · unfold get_heat_color
    split_ifs <;> first | rfl | omega
  · unfold get_heat_color
    split_ifs <;> simp

/-- C6: `clear_pitch_log` never fails and resets every state to the initial
empty state; a summary taken right after it reports zero pitches, a 0.0
accuracy percentage, and an all-zero 25-zone heatmap. -/
theorem C6_clear_resets (s : State) :
    PitchTracker.clear_pitch_log s = initState ∧
    (PitchTracker.generate_summary (PitchTracker.clear_pitch_log s)).1.total_pitches = 0 ∧
    (PitchTracker.generate_summary (PitchTracker.clear_pitch_log s)).1.accuracy_pct = 0 ∧
    (PitchTracker.generate_summary (PitchTracker.clear_pitch_log s)).1.counts_by_zone =
      ALL_ZONES.map (fun z => (z, 0)) ∧
    (PitchTracker.generate_summary (PitchTracker.clear_pitch_log s)).1.counts_grid =
      [[0, 0, 0, 0, 0], [0, 0, 0, 0, 0], [0, 0, 0, 0, 0], [0, 0, 0, 0, 0], [0, 0, 0, 0, 0]] := by
  refine ⟨rfl, rfl, ?_, rfl, rfl⟩
  norm_num [PitchTracker.generate_summary, PitchTracker.clear_pitch_log, pyRound1, roundHalfEven]

/-- C10: failure atomicity — whenever `set_target` or `log_pitch` raises, the
tracker state is exactly what it was before the call. -/
theorem C10_failure_atomicity (s : State) (z : String) (e : Err) :
    ((PitchTracker.set_target s z).1 = .error e → (PitchTracker.set_target s z).2 = s) ∧
    ((PitchTracker.log_pitch s z).1 = .error e → (PitchTracker.log_pitch s z).2 = s) := by
  constructor
  · intro h
    cases hv : PitchTracker.validate_zone z with
    | error e => simp [PitchTracker.set_target, hv]
    | ok u => simp [PitchTracker.set_target, hv] at h
  · intro h
    cases hv : PitchTracker.validate_zone z with
    | error e => simp [PitchTracker.log_pitch, hv]
    | ok u =>
      cases hts : s.target with
      | none => simp [PitchTracker.log_pitch, hv, hts]
      | some t =>
        by_cases hie : t.isEmpty
        · simp [PitchTracker.log_pitch, hv, hts, hie]
        · simp [PitchTracker.log_pitch, hv, hts, hie] at h

/-- Witness for C10, at the invalid zone "XX" from the initial state. -/
theorem C10_witness :
    (PitchTracker.set_target initState "XX").2 = initState ∧
    (PitchTracker.log_pitch initState "XX").2 = initState :=
  ⟨(C10_failure_atomicity initState "XX" (.invalidZone "XX")).1 rfl,
   (C10_failure_atomicity initState "XX" (.invalidZone "XX")).2 rfl⟩

/-- Any zone drawn from the fixed 25-label set is a nonempty string, hence
truthy in Python's sense. -/
theorem mem_ALL_ZONES_not_isEmpty {t : String} (h : t ∈ ALL_ZONES) :
    t.isEmpty = false := by
  rcases Bool.eq_false_or_eq_true t.isEmpty with he | he
  · rw [String.isEmpty_iff] at he
    subst he
    exact absurd h (by decide)
  · exact he

/-- C1: on a valid `actual` and a state whose target is set (to a valid zone),
`log_pitch` scores 10 for an exact hit, 5 for a neighbor, 0 otherwise; appends
the entry carrying the bumped counter, the consumed target, `actual` and that
accuracy; unsets the target; and returns exactly the appended entry. -/
theorem C1_log_pitch_success (s : State) (t actual : String)
    (hz : actual ∈ ALL_ZONES) (ht : s.target = some t) (htz : t ∈ ALL_ZONES) :
    PitchTracker.log_pitch s actual =
      (Except.ok
        { pitch_num := if s.pitch_counter < 1 then 1 else s.pitch_counter + 1
          target := t
          actual := actual
          accuracy := if t = actual then 10
                      else if PitchTracker.is_neighbor t actual then 5 else 0 },
       { target := none
         pitch_counter := if s.pitch_counter < 1 then 1 else s.pitch_counter + 1
         pitch_log := s.pitch_log ++
           [{ pitch_num := if s.pitch_counter < 1 then 1 else s.pitch_counter + 1
              target := t
              actual := actual
              accuracy := if t = actual then 10
                          else if PitchTracker.is_neighbor t actual then 5 else 0 }] }) := by
  have hne : t.isEmpty = false := mem_ALL_ZONES_not_isEmpty htz
  simp [PitchTracker.log_pitch, PitchTracker.validate_zone, hz, ht, hne]

/-- Witness for C1: from target Q1, logging Q1 yields entry (1, Q1, Q1, 10)
and a state with that one entry, counter 1 and no target. -/
theorem C1_witness :
    PitchTracker.log_pitch ⟨some "Q1", 0, []⟩ "Q1" =
      (Except.ok ⟨1, "Q1", "Q1", 10⟩, ⟨none, 1, [⟨1, "Q1", "Q1", 10⟩]⟩) := by
  rw [C1_log_pitch_success ⟨some "Q1", 0, []⟩ "Q1" "Q1" (by decide) rfl (by decide)]
  norm_num

/-- C4: `set_target` and `log_pitch` raise `InvalidZone` exactly on zones
outside the fixed 25-label set (for `log_pitch` even when the target is also
unset), and `log_pitch` on a valid zone raises `NoTargetSet` exactly when the
target is unset; stated for states whose target, when set, is a valid zone. -/
theorem C4_error_conditions (s : State) (z : String)
    (hwf : ∀ t, s.target = some t → t ∈ ALL_ZONES) :
    ((PitchTracker.set_target s z).1 = .error (.invalidZone z) ↔ z ∉ ALL_ZONES) ∧
    ((PitchTracker.log_pitch s z).1 = .error (.invalidZone z) ↔ z ∉ ALL_ZONES) ∧
    (z ∈ ALL_ZONES →
      ((PitchTracker.log_pitch s z).1 = .error .noTargetSet ↔ s.target = none)) := by
  by_cases hz : z ∈ ALL_ZONES
  · refine ⟨?_, ?_, ?_⟩
    · simp [PitchTracker.set_target, PitchTracker.validate_zone, hz]
    · cases hts : s.target with
      | none => simp [PitchTracker.log_pitch, PitchTracker.validate_zone, hz, hts]
      | some t =>
        have hne : t.isEmpty = false := mem_ALL_ZONES_not_isEmpty (hwf t hts)
        simp [PitchTracker.log_pitch, PitchTracker.validate_zone, hz, hts, hne]
    · intro _
      cases hts : s.target with
      | none => simp [PitchTracker.log_pitch, PitchTracker.validate_zone, hz, hts]
      | some t =>
        have hne : t.isEmpty = false := mem_ALL_ZONES_not_isEmpty (hwf t hts)
        simp [PitchTracker.log_pitch, PitchTracker.validate_zone, hz, hts, hne]
  · refine ⟨?_, ?_, fun hmem => absurd hmem hz⟩
    · simp [PitchTracker.set_target, PitchTracker.validate_zone, hz]
    · simp [PitchTracker.log_pitch, PitchTracker.validate_zone, hz]

/-- Witness for C4: from the initial state, logging the valid zone Q1 raises
`NoTargetSet`. -/
theorem C4_witness :
    (PitchTracker.log_pitch initState "Q1").1 = .error .noTargetSet :=
  ((C4_error_conditions initState "Q1" (fun _ h => nomatch h)).2.2 (by decide)).mpr rfl

/-- Rounding zero to one decimal place gives zero. -/
theorem pyRound1_zero : pyRound1 0 = 0 := by
  norm_num [pyRound1, roundHalfEven]

/-- The spec scenario for C5: three logged pitches against target Q1 landing
at Q1, Q2 and Q9, with accuracies 10, 5 and 0. -/
def scenarioC5 : State :=
  ⟨none, 3, [⟨1, "Q1", "Q1", 10⟩, ⟨2, "Q1", "Q2", 5⟩, ⟨3, "Q1", "Q9", 0⟩]⟩

/-- C5: the summary's `accuracy_pct` is `(accurate + close) / total * 100`
rounded to one decimal place when the log is nonempty and 0.0 when it is
empty, with `miss = total - accurate - close`; on the spec scenario with
accuracies [10, 5, 0] the totals are 3/1/1/1 and the percentage is 66.7. -/
theorem C5_accuracy_pct :
    (∀ s : State,
      (PitchTracker.generate_summary s).1.miss_0 =
        (s.pitch_log.length : Int)
          - ((s.pitch_log.filter (fun p => p.accuracy == 10)).length : Int)
          - ((s.pitch_log.filter (fun p => p.accuracy == 5)).length : Int) ∧
      (PitchTracker.generate_summary s).1.accuracy_pct =
        (if s.pitch_log.length = 0 then (0 : ℚ)
         else pyRound1
           ((((s.pitch_log.filter (fun p => p.accuracy == 10)).length : ℚ) +
             ((s.pitch_log.filter (fun p => p.accuracy == 5)).length : ℚ)) /
            (s.pitch_log.length : ℚ) * 100))) ∧
    (PitchTracker.generate_summary scenarioC5).1.total_pitches = 3 ∧
    (PitchTracker.generate_summary scenarioC5).1.accurate_10 = 1 ∧
    (PitchTracker.generate_summary scenarioC5).1.close_5 = 1 ∧
    (PitchTracker.generate_summary scenarioC5).1.miss_0 = 1 ∧
    (PitchTracker.generate_summary scenarioC5).1.accuracy_pct = 667 / 10 := by
  refine ⟨fun s => ⟨rfl, ?_⟩, rfl, rfl, rfl, rfl, ?_⟩
  · by_cases h : s.pitch_log.length = 0
    · simp [PitchTracker.generate_summary, h, pyRound1_zero]
    · simp [PitchTracker.generate_summary, h]
  · norm_num [PitchTracker.generate_summary, scenarioC5, pyRound1, roundHalfEven]

/-- The invariant behind C2: the counter equals the log length, and the
`pitch_num` fields read 1..N in log order. -/
def TrackerInv (s : State) : Prop :=
  s.pitch_counter = (s.pitch_log.length : Int) ∧
  s.pitch_log.map PitchEntry.pitch_num =
    (List.range' 1 s.pitch_log.length).map (fun n : Nat => (n : Int))

/-- The initial empty state satisfies the invariant. -/
theorem trackerInv_init : TrackerInv initState :=
  ⟨rfl, rfl⟩

/-- Every call — succeeding or raising — preserves the invariant. -/
theorem trackerInv_step (s : State) (op : Op) (h : TrackerInv s) :
    TrackerInv (step s op) := by
  obtain ⟨h1, h2⟩ := h
  cases op with
  | setTargetOp z =>
    cases hv : PitchTracker.validate_zone z with
    | error e =>
      have hstep : step s (.setTargetOp z) = s := by
        simp [step, PitchTracker.set_target, hv]
      rw [hstep]
      exact ⟨h1, h2⟩
    | ok u =>
      have hstep : step s (.setTargetOp z) = { s with target := some z } := by
        simp [step, PitchTracker.set_target, hv]
      rw [hstep]
      exact ⟨h1, h2⟩
  | clearLogOp => exact ⟨rfl, rfl⟩
  | logPitchOp z =>
    cases hv : PitchTracker.validate_zone z with
    | error e => simpa [step, PitchTracker.log_pitch, hv] using And.intro h1 h2
    | ok u =>
      cases hts : s.target with
      | none => simpa [step, PitchTracker.log_pitch, hv, hts] using And.intro h1 h2
      | some t =>
        by_cases hie : t.isEmpty
        · simpa [step, PitchTracker.log_pitch, hv, hts, hie] using And.intro h1 h2
        · have hie' : t.isEmpty = false := by simpa using hie
          have hstep : step s (.logPitchOp z) =
              { target := none
                pitch_counter := if s.pitch_counter < 1 then 1 else s.pitch_counter + 1
                pitch_log := s.pitch_log ++
                  [{ pitch_num := if s.pitch_counter < 1 then 1 else s.pitch_counter + 1
                     target := t
                     actual := z
                     accuracy := if t = z then 10
                                 else if PitchTracker.is_neighbor t z then 5 else 0 }] } := by
            simp [step, PitchTracker.log_pitch, hv, hts, hie']
          rw [hstep]
          have hr : List.range' 1 (s.pitch_log.length + 1) =
              List.range' 1 s.pitch_log.length ++ [1 + s.pitch_log.length] := by
            simp [List.range'_concat]
          refine ⟨?_, ?_⟩
          · simp only [List.length_append, List.length_cons, List.length_nil]
            rw [h1]
            split_ifs <;> omega
          · simp only [List.map_append, List.map_cons, List.map_nil, h2,
              List.length_append, List.length_cons, List.length_nil, hr]
            congr 1
            simp only [List.cons.injEq, and_true]
            rw [h1]
            split_ifs <;> omega

/-- The invariant is preserved along any fold of calls. -/
theorem trackerInv_foldl (ops : List Op) (s : State) (h : TrackerInv s) :
    TrackerInv (ops.foldl step s) := by
  induction ops generalizing s with
  | nil => exact h
  | cons op rest ih => exact ih _ (trackerInv_step s op h)

/-- C2: after any sequence of calls from the initial empty state — each one
succeeding or raising — the counter equals the log length and the `pitch_num`
fields of the log are exactly 1..N in order. -/
theorem C2_counter_log_invariant (ops : List Op) :
    (run ops).pitch_counter = ((run ops).pitch_log.length : Int) ∧
    (run ops).pitch_log.map PitchEntry.pitch_num =
      (List.range' 1 (run ops).pitch_log.length).map (fun n : Nat => (n : Int)) :=
  trackerInv_foldl ops initState trackerInv_init
